import Mathlib

/-!
Verification of the idempotent "publish newsletter" command processor and the
durable delivery queue of the ztp newsletter application.

The Rust source is shallowly embedded: each SQL table becomes a list of rows
inside a `DbState`, a SQL transaction becomes a local copy of the `DbState`
that is published (committed) only by returning it, and dropping the copy on
an error path is the rollback.  Machine integers of the source are modelled
with `Nat`/`Int`, with explicit wrapping where the source casts
(`status as i16`).  Fallible Rust functions return `Except String`.
-/

namespace Ztp

/-- Composite Postgres type `header_pair` (src/idempotency/persistence.rs):
a header name together with its raw byte value. -/
structure HeaderPairRecord where
  name : String
  value : List Nat
deriving DecidableEq, Repr

/-- An actix `HttpResponse` restricted to what the subsystem persists and
relays: status code (the `u16` value), ordered header list (duplicates
allowed) and body bytes. -/
structure HttpResponse where
  status : Nat
  headers : List HeaderPairRecord
  body : List Nat
deriving DecidableEq, Repr

/-- A row of the `idempotency` table: primary key (user_id, idempotency_key),
creation timestamp (seconds), and the three response columns which are null
while the record is claimed-but-in-flight. -/
structure IdempotencyRow where
  user_id : Nat
  idempotency_key : String
  created_at : Int
  response_status_code : Option Int
  response_headers : Option (List HeaderPairRecord)
  response_body : Option (List Nat)
deriving DecidableEq, Repr

/-- A row of the `newsletter_issues` table (src/routes/newsletters/post.rs). -/
structure NewsletterIssueRow where
  newsletter_issue_id : Nat
  title : String
  content : String
deriving DecidableEq, Repr

/-- A row of the `issue_delivery_queue` table: primary key
(newsletter_issue_id, subscriber_email) plus the retry bookkeeping columns
`n_retries` and `execute_after` read and written by src/delivery.rs. -/
structure DeliveryTaskRow where
  newsletter_issue_id : Nat
  subscriber_email : String
  n_retries : Int
  execute_after : Int
deriving DecidableEq, Repr

/-- A row of the `subscriptions` table, reduced to the two columns the
subsystem reads (src/routes/newsletters/post.rs, `enqueue_delivery_tasks`). -/
structure SubscriptionRow where
  email : String
  status : String
deriving DecidableEq, Repr

/-- The committed database state: the four tables the subsystem touches. -/
structure DbState where
  idempotency : List IdempotencyRow
  newsletter_issues : List NewsletterIssueRow
  issue_delivery_queue : List DeliveryTaskRow
  subscriptions : List SubscriptionRow
deriving DecidableEq, Repr

/-! ## Idempotency key validation (src/idempotency/key.rs) -/

/-- `IdempotencyKey::try_from` (src/idempotency/key.rs): rejects the empty
string and strings longer than 50 bytes (`value.len()` in Rust counts UTF-8
bytes). -/
def IdempotencyKey.tryFrom (value : String) : Except String String :=
  if value.isEmpty then
    .error "Idempotency key cannot be empty"
  else if value.utf8ByteSize > 50 then
    .error "Idempotency key cannot be longer than 50 characters"
  else
    .ok value

/-! ## Status-code casts (src/idempotency/persistence.rs)

`save_response` stores `http_response.status().as_u16() as i16`;
`get_saved_response` recovers it with `try_into` (an `i16 -> u16` conversion
that fails on negatives) followed by `StatusCode::from_u16` (which accepts
exactly 100..=999). -/

/-- The Rust cast `u16 as i16`: two's-complement wrapping. -/
def i16_of_u16 (s : Nat) : Int :=
  let m := s % 65536
  if m < 32768 then (m : Int) else (m : Int) - 65536

/-- The Rust conversion `i16 -> u16` via `try_into`: fails on negatives. -/
def u16_of_i16 (i : Int) : Option Nat :=
  if 0 ≤ i then some i.toNat else none

/-- `StatusCode::from_u16`: valid status codes are 100..=999. -/
def statusCode_from_u16 (n : Nat) : Option Nat :=
  if 100 ≤ n ∧ n < 1000 then some n else none

/-! ## Idempotency store (src/idempotency/persistence.rs) -/

/-- The WHERE clause shared by the idempotency queries:
`user_id = $1 AND idempotency_key = $2`. -/
def idemMatches (user_id : Nat) (key : String) (r : IdempotencyRow) : Bool :=
  r.user_id == user_id && r.idempotency_key == key

/-- `get_saved_response`: select the three response columns for
(user_id, key).  The sqlx `!` overrides make a NULL in any of the three
columns a decoding error; the status round-trips through `i16` and
`StatusCode::from_u16`, either of which can fail (propagated with `?`). -/
def get_saved_response (db : DbState) (user_id : Nat) (key : String) :
    Except String (Option HttpResponse) :=
  match db.idempotency.find? (idemMatches user_id key) with
  | none => .ok none
  | some saved =>
    match saved.response_status_code, saved.response_headers, saved.response_body with
    | some sc, some headers, some body =>
      match u16_of_i16 sc with
      | none => .error "out of range integral type conversion attempted"
      | some n =>
        match statusCode_from_u16 n with
        | none => .error "invalid status code"
        | some status => .ok (some { status := status, headers := headers, body := body })
    | _, _, _ => .error "unexpected null; try decoding as an Option"

/-- Result of `try_save_response`: either the caller owns the key and gets the
open transaction (modelled as the transaction-local database copy), or the
saved response is replayed. -/
inductive NextAction where
  | StartProcessing (t : DbState)
  | ReturnSavedResponse (resp : HttpResponse)
deriving DecidableEq, Repr

/-- `try_save_response`: begin a transaction and
`INSERT ... ON CONFLICT DO NOTHING` an empty record for (user_id, key).
Sequentially, the conflict fires exactly when a committed row for the key
exists.  On a fresh insert the open transaction (the copy with the empty
record appended) is handed to the caller; on a conflict the saved response is
read back from the pool, a missing response being an error. -/
def try_save_response (db : DbState) (user_id : Nat) (key : String) (now : Int) :
    Except String NextAction :=
  if db.idempotency.any (idemMatches user_id key) then
    match get_saved_response db user_id key with
    | .error e => .error e
    | .ok none => .error "could not retrieve saved response"
    | .ok (some resp) => .ok (.ReturnSavedResponse resp)
  else
    .ok (.StartProcessing
      { db with
          idempotency := db.idempotency ++
            [{ user_id := user_id, idempotency_key := key, created_at := now,
               response_status_code := none, response_headers := none,
               response_body := none }] })

/-- `save_response`: encode (status as i16, headers, body bytes) and
`UPDATE idempotency SET ... WHERE user_id AND idempotency_key` inside the
transaction, then commit (the returned state is the committed one).  Returns
the reconstructed response `head.set_body(raw_body)`. -/
def save_response (user_id : Nat) (key : String) (http_response : HttpResponse)
    (transaction : DbState) : HttpResponse × DbState :=
  let status_code := i16_of_u16 http_response.status
  let raw_headers := http_response.headers
  let raw_body := http_response.body
  let committed :=
    { transaction with
        idempotency := transaction.idempotency.map (fun r =>
          if idemMatches user_id key r then
            { r with
                response_status_code := some status_code,
                response_headers := some raw_headers,
                response_body := some raw_body }
          else r) }
  ({ status := http_response.status, headers := raw_headers, body := raw_body },
   committed)

/-! ## Expiry sweeper (src/idempotency/expiry.rs) -/

/-- `expire_old_keys`:
`DELETE FROM idempotency WHERE now() - created_at > interval '24 hours'`.
Timestamps are in seconds, so the window is 86400. -/
def expire_old_keys (db : DbState) (now : Int) : DbState :=
  { db with
      idempotency := db.idempotency.filter (fun r => !(now - r.created_at > 86400)) }

/-! ## Command orchestrator (src/routes/newsletters/post.rs) -/

/-- The form carried by `POST /admin/newsletters`. -/
structure NewsletterForm where
  title : String
  content : String
  idempotency_key : String
deriving DecidableEq, Repr

/-- `utils::redirect`: a 303 See Other with a single `location` header and an
empty body; header values are stored as bytes. -/
def strBytes (s : String) : List Nat :=
  s.data.map Char.toNat

/-- `HttpResponse::SeeOther().insert_header((LOCATION, location)).finish()`. -/
def redirect (location : String) : HttpResponse :=
  { status := 303
    headers := [{ name := "location", value := strBytes location }]
    body := [] }

/-- `NewsletterForm::insert_issue`: insert one `newsletter_issues` row with a
freshly generated id (the id is passed in, standing for `Uuid::new_v4`). -/
def insert_issue (t : DbState) (id : Nat) (title content : String) : DbState :=
  { t with
      newsletter_issues := t.newsletter_issues ++
        [{ newsletter_issue_id := id, title := title, content := content }] }

/-- `enqueue_delivery_tasks`: one bulk insert into `issue_delivery_queue`,
one row per subscription whose status is currently 'confirmed'.
The insert lists only (newsletter_issue_id, subscriber_email); the retry
columns take the table defaults.  The migration files are not under src/, so
the defaults are modelled from the spec: `retry_count` starts at zero and
`next_eligible_delay` starts at the configured base interval `base`. -/
def enqueue_delivery_tasks (t : DbState) (newsletter_issue_id : Nat) (base : Int) :
    DbState :=
  { t with
      issue_delivery_queue := t.issue_delivery_queue ++
        (t.subscriptions.filter (fun s => s.status == "confirmed")).map
          (fun s =>
            { newsletter_issue_id := newsletter_issue_id
              subscriber_email := s.email
              n_retries := 0
              execute_after := base }) }

/-- Fault injection for `publish_newsletter`: which step, if any, fails after
a successful claim.  `crashBeforeComplete` stands for any crash after the
inserts and before `save_response` commits; in every fault case the open
transaction is dropped and rolls back. -/
inductive PublishFault where
  | noFault
  | issueInsertFails
  | enqueueFails
  | crashBeforeComplete
deriving DecidableEq, Repr

/-- `publish_newsletter`: validate the key (400 on failure), claim it via
`try_save_response` (replaying the saved response on a completed conflict),
then inside the claimed transaction insert the issue, bulk-enqueue the
delivery tasks, and `save_response` the `redirect "/admin/newsletters"`,
committing everything atomically.  The second component of the result is the
committed database state: on every error path it is the input state, because
the dropped transaction rolls back. -/
def publish_newsletter (db : DbState) (user_id : Nat) (form : NewsletterForm)
    (now : Int) (new_issue_id : Nat) (base : Int) (fault : PublishFault) :
    (Except String HttpResponse) × DbState :=
  match IdempotencyKey.tryFrom form.idempotency_key with
  | .error e => (.error e, db)
  | .ok key =>
    match try_save_response db user_id key now with
    | .error e => (.error e, db)
    | .ok (.ReturnSavedResponse saved) => (.ok saved, db)
    | .ok (.StartProcessing t) =>
      match fault with
      | .issueInsertFails => (.error "Could not insert newsletter issue into db", db)
      | _ =>
        let t := insert_issue t new_issue_id form.title form.content
        match fault with
        | .enqueueFails => (.error "Could not enqueue delivery tasks", db)
        | _ =>
          let t := enqueue_delivery_tasks t new_issue_id base
          match fault with
          | .crashBeforeComplete => (.error "crashed before complete", db)
          | _ =>
            let r := save_response user_id key (redirect "/admin/newsletters") t
            (.ok r.1, r.2)

/-! ## Delivery worker (src/delivery.rs) -/

/-- The in-memory issue loaded by the worker (title and content only). -/
structure Newsletter where
  title : String
  content : String
deriving DecidableEq, Repr

/-- `get_issue`: `SELECT title, content FROM newsletter_issues WHERE
newsletter_issue_id = $1`, via `fetch_one`, which errors when no row
matches. -/
def get_issue (db : DbState) (issue_id : Nat) : Except String Newsletter :=
  match db.newsletter_issues.find? (fun i => i.newsletter_issue_id == issue_id) with
  | none => .error "no rows returned by a query that expected to return at least one row"
  | some i => .ok { title := i.title, content := i.content }

/-- The WHERE clause shared by the delivery-queue queries:
`newsletter_issue_id = $1 AND subscriber_email = $2`. -/
def taskMatches (issue_id : Nat) (email : String) (r : DeliveryTaskRow) : Bool :=
  r.newsletter_issue_id == issue_id && r.subscriber_email == email

/-- Outcome of one worker cycle (`try_send_email`). -/
inductive DeliveryOutcome where
  | NoTasksLeft
  | TasksLeft
deriving DecidableEq, Repr

/-- `start_delivery`: begin a transaction and select one queue row with
`FOR UPDATE SKIP LOCKED LIMIT 1`.  The select's arbitrary choice is modelled
as the first row; with the single sequential worker embedded here no row is
locked by anyone else.  The transaction is the returned database copy. -/
def start_delivery (db : DbState) : Option (DbState × Nat × String) :=
  db.issue_delivery_queue.head?.map
    (fun r => (db, r.newsletter_issue_id, r.subscriber_email))

/-- `finish_delivery`: `DELETE FROM issue_delivery_queue WHERE
newsletter_issue_id = $1 AND subscriber_email = $2`, then commit: the
returned state is the committed one. -/
def finish_delivery (transaction : DbState) (issue_id : Nat)
    (subscriber_email : String) : DbState :=
  { transaction with
      issue_delivery_queue := transaction.issue_delivery_queue.filter
        (fun r => !(taskMatches issue_id subscriber_email r)) }

/-- The `while let Err(e) = send_email(..)` loop of `try_send_email`.
`sends` is the oracle for the external email provider: one Bool per send
attempt, `true` meaning the provider accepted; an exhausted oracle means the
next attempt succeeds.  On a failed attempt the worker re-reads the task row
inside the transaction (`fetch_one`, erroring if it vanished), computes
`retries = n_retries + 1` and `seconds = retries * execute_after`, aborts the
cycle with an error when `seconds > 5000`, and otherwise sleeps and persists
the incremented counters in the transaction before retrying. -/
def delivery_retry_loop (issue_id : Nat) (email : String) :
    List Bool → DbState → Except String DbState
  | [], t => .ok t
  | sendOk :: rest, t =>
    if sendOk then .ok t
    else
      match t.issue_delivery_queue.find? (taskMatches issue_id email) with
      | none => .error "no rows returned by a query that expected to return at least one row"
      | some row =>
        let retries := row.n_retries + 1
        let seconds := retries * row.execute_after
        if seconds > 5000 then .error "aborting after retries"
        else
          delivery_retry_loop issue_id email rest
            { t with
                issue_delivery_queue := t.issue_delivery_queue.map (fun r =>
                  if taskMatches issue_id email r then
                    { r with n_retries := retries, execute_after := seconds }
                  else r) }

/-- `try_send_email`, one worker cycle: claim a task (`start_delivery`), load
the parent issue from the pool, validate the recipient address
(`SubscriberEmail::parse` calls the external validator crate, so its verdict
is the oracle `emailValid`), run the send/backoff loop for a valid address,
and `finish_delivery` (delete the row and commit).  The second component of
the result is the committed state: on every error path it is the input
state, because the dropped transaction rolls back. -/
def try_send_email (db : DbState) (emailValid : Bool) (sends : List Bool) :
    (Except String DeliveryOutcome) × DbState :=
  match start_delivery db with
  | none => (.ok .NoTasksLeft, db)
  | some (transaction, issue_id, email) =>
    match get_issue db issue_id with
    | .error e => (.error e, db)
    | .ok _issue =>
      if emailValid then
        match delivery_retry_loop issue_id email sends transaction with
        | .error e => (.error e, db)
        | .ok t => (.ok .TasksLeft, finish_delivery t issue_id email)
      else
        (.ok .TasksLeft, finish_delivery transaction issue_id email)

/-- Closed form of the backoff delay computed by `delivery_retry_loop` for a
task that started fresh at (n_retries = 0, execute_after = base): the delay
slept before the retry that raises `n_retries` to n + 1.  The loop computes
`seconds = (n_retries + 1) * execute_after` and then stores `seconds` back
into `execute_after`, so `backoffDelay base 0 = base` and
`backoffDelay base (n+1) = (n+2) * backoffDelay base n`. -/
def backoffDelay (base : Int) : Nat → Int
  | 0 => base
  | n + 1 => ((n : Int) + 2) * backoffDelay base n

/-! ## General list lemmas used by the proofs -/

/-- If no element satisfies the predicate, a search finds nothing. -/
theorem find?_eq_none_of_any_eq_false {α : Type} {p : α → Bool} :
    ∀ {l : List α}, l.any p = false → l.find? p = none := by
  intro l
  induction l with
  | nil => intro _; rfl
  | cons a tl ih =>
    intro h
    simp only [List.any_cons, Bool.or_eq_false_iff] at h
    simp only [List.find?_cons, h.1]
    exact ih h.2

/-- A conditional row update leaves a list untouched when no row matches. -/
theorem map_update_eq_self {α : Type} {p : α → Bool} (g : α → α) :
    ∀ {l : List α}, l.any p = false →
      (l.map fun r => if p r then g r else r) = l := by
  intro l
  induction l with
  | nil => intro _; rfl
  | cons a tl ih =>
    intro h
    simp only [List.any_cons, Bool.or_eq_false_iff] at h
    simp only [List.map_cons, h.1, Bool.false_eq_true, if_false, List.cons.injEq, true_and]
    exact ih h.2

/-- Searching after a conditional row update that preserves the predicate
finds the updated version of what the original search found. -/
theorem find?_map_update {α : Type} {p : α → Bool} (g : α → α)
    (hg : ∀ r, p (g r) = p r) :
    ∀ (l : List α),
      ((l.map fun r => if p r then g r else r).find? p) = (l.find? p).map g := by
  intro l
  induction l with
  | nil => rfl
  | cons a tl ih =>
    by_cases ha : p a = true
    · simp only [List.map_cons, ha, if_true, List.find?_cons, hg a, Option.map_some]
      rfl
    · have ha' : p a = false := by
        cases hpa : p a
        · rfl
        · exact absurd hpa ha
      simp only [List.map_cons, ha', Bool.false_eq_true, if_false, List.find?_cons,
        Option.map_some]
      exact ih

/-! ## Supporting lemmas about the embedded operations -/

/-- The backoff delay is positive whenever the configured base is. -/
theorem backoffDelay_pos {base : Int} (hbase : 0 < base) :
    ∀ n, 0 < backoffDelay base n := by
  intro n
  induction n with
  | zero => exact hbase
  | succ k ih =>
    have h2 : (0 : Int) < (k : Int) + 2 := by positivity
    exact mul_pos h2 ih

/-- The `u16 as i16` cast round-trips through `try_into` below 32768. -/
theorem u16_i16_roundtrip {s : Nat} (h : s < 32768) :
    u16_of_i16 (i16_of_u16 s) = some s := by
  unfold i16_of_u16 u16_of_i16
  have hm : s % 65536 = s := Nat.mod_eq_of_lt (by omega)
  simp only [hm, h, if_true]
  simp

/-- The update written by `save_response` does not touch the key columns, so
the idempotency WHERE clause is preserved. -/
theorem idemMatches_update (user_id : Nat) (key : String) (sc : Int)
    (hs : List HeaderPairRecord) (b : List Nat) (r : IdempotencyRow) :
    idemMatches user_id key
      { r with
          response_status_code := some sc,
          response_headers := some hs,
          response_body := some b } = idemMatches user_id key r := rfl

/-! ## Claim theorems -/

/-- C8: the backoff delay the worker waits before the next send retry is a
strictly monotonically increasing function of the task's retry count: for
retry counts n < m with the same positive configured base, the delay computed
at retry m is strictly greater than the delay computed at retry n.
(`backoffDelay base n` is the `seconds` value `delivery_retry_loop` computes
when `n_retries` is raised from n to n + 1 on a task that started at
`(0, base)`.) -/
theorem backoff_strictly_monotone (base : Int) (n m : Nat)
    (hbase : 0 < base) (hnm : n < m) :
    backoffDelay base n < backoffDelay base m := by
  have hstep : ∀ k, backoffDelay base k < backoffDelay base (k + 1) := by
    intro k
    have hpos := backoffDelay_pos hbase k
    have h2 : (1 : Int) < (k : Int) + 2 := by omega
    calc backoffDelay base k = 1 * backoffDelay base k := (one_mul _).symm
      _ < ((k : Int) + 2) * backoffDelay base k :=
          mul_lt_mul_of_pos_right h2 hpos
      _ = backoffDelay base (k + 1) := rfl
  exact strictMono_nat_of_lt_succ hstep hnm

/-- Witness for C8 at base 60, retries 0 < 2. -/
theorem backoff_strictly_monotone_witness :
    backoffDelay 60 0 < backoffDelay 60 2 :=
  backoff_strictly_monotone 60 0 2 (by decide) (by decide)

/-- C9: after one sweeper cycle (`expire_old_keys`), a record strictly older
than the 24-hour window is absent — regardless of whether it was completed —
and a record within the window is still present; the sweep touches no other
table. -/
theorem expire_old_keys_spec (db : DbState) (now : Int) (r : IdempotencyRow)
    (hmem : r ∈ db.idempotency) :
    (r ∈ (expire_old_keys db now).idempotency ↔ now - r.created_at ≤ 86400) ∧
    (expire_old_keys db now).newsletter_issues = db.newsletter_issues ∧
    (expire_old_keys db now).issue_delivery_queue = db.issue_delivery_queue ∧
    (expire_old_keys db now).subscriptions = db.subscriptions := by
  refine ⟨?_, rfl, rfl, rfl⟩
  simp [expire_old_keys, List.mem_filter, hmem, not_lt]

/-- Witness for C9: a record created at time 0, swept at time 100000. -/
theorem expire_old_keys_spec_witness :
    (({ user_id := 1, idempotency_key := "old", created_at := 0,
        response_status_code := none, response_headers := none,
        response_body := none } : IdempotencyRow) ∈
      (expire_old_keys
        { idempotency := [{ user_id := 1, idempotency_key := "old", created_at := 0,
                            response_status_code := none, response_headers := none,
                            response_body := none }],
          newsletter_issues := [], issue_delivery_queue := [], subscriptions := [] }
        100000).idempotency ↔ (100000 : Int) - 0 ≤ 86400) ∧
    (expire_old_keys
        { idempotency := [{ user_id := 1, idempotency_key := "old", created_at := 0,
                            response_status_code := none, response_headers := none,
                            response_body := none }],
          newsletter_issues := [], issue_delivery_queue := [], subscriptions := [] }
        100000).newsletter_issues = [] ∧
    (expire_old_keys
        { idempotency := [{ user_id := 1, idempotency_key := "old", created_at := 0,
                            response_status_code := none, response_headers := none,
                            response_body := none }],
          newsletter_issues := [], issue_delivery_queue := [], subscriptions := [] }
        100000).issue_delivery_queue = [] ∧
    (expire_old_keys
        { idempotency := [{ user_id := 1, idempotency_key := "old", created_at := 0,
                            response_status_code := none, response_headers := none,
                            response_body := none }],
          newsletter_issues := [], issue_delivery_queue := [], subscriptions := [] }
        100000).subscriptions = [] :=
  expire_old_keys_spec _ 100000 _ (by decide)

/-- C7: when the claim insert hits a conflict (a record for (actor, key)
already exists) but the record read back is still incomplete (its response
columns are absent), `try_save_response` surfaces an unexpected error: it
neither returns a claimed transaction nor a fabricated response. -/
theorem try_save_response_incomplete_errors (db : DbState) (user_id : Nat)
    (key : String) (now : Int) (r : IdempotencyRow)
    (hfind : db.idempotency.find? (idemMatches user_id key) = some r)
    (hnull : r.response_status_code = none) :
    ∃ e, try_save_response db user_id key now = .error e := by
  have hany : db.idempotency.any (idemMatches user_id key) = true :=
    List.any_eq_true.mpr
      ⟨r, List.mem_of_find?_eq_some hfind, List.find?_some hfind⟩
  have hget : get_saved_response db user_id key =
      .error "unexpected null; try decoding as an Option" := by
    simp [get_saved_response, hfind, hnull]
  refine ⟨"unexpected null; try decoding as an Option", ?_⟩
  simp [try_save_response, hany, hget]

/-- Witness for C7: a single claimed-but-in-flight record. -/
theorem try_save_response_incomplete_errors_witness :
    ∃ e, try_save_response
      { idempotency := [{ user_id := 1, idempotency_key := "k", created_at := 0,
                          response_status_code := none, response_headers := none,
                          response_body := none }],
        newsletter_issues := [], issue_delivery_queue := [], subscriptions := [] }
      1 "k" 5 = .error e :=
  try_save_response_incomplete_errors _ 1 "k" 5
    { user_id := 1, idempotency_key := "k", created_at := 0,
      response_status_code := none, response_headers := none,
      response_body := none }
    (by decide) rfl

/-- C4: persisting a response with `save_response` (complete) and reading it
back with `get_saved_response` is the identity on (status, headers, body):
the cached path replays status code, header list (order and duplicates
preserved) and body bytes verbatim, and `save_response` itself hands the very
same response back to its caller. -/
theorem save_response_roundtrip (t : DbState) (user_id : Nat) (key : String)
    (resp : HttpResponse)
    (hlo : 100 ≤ resp.status) (hhi : resp.status < 1000)
    (hrow : (t.idempotency.find? (idemMatches user_id key)).isSome) :
    (save_response user_id key resp t).1 = resp ∧
    get_saved_response (save_response user_id key resp t).2 user_id key =
      .ok (some resp) := by
  obtain ⟨r, hr⟩ := Option.isSome_iff_exists.mp hrow
  refine ⟨rfl, ?_⟩
  have hfind : ((save_response user_id key resp t).2).idempotency.find?
      (idemMatches user_id key) = some
        { r with
            response_status_code := some (i16_of_u16 resp.status),
            response_headers := some resp.headers,
            response_body := some resp.body } := by
    show ((t.idempotency.map fun x =>
        if idemMatches user_id key x then
          { x with
              response_status_code := some (i16_of_u16 resp.status),
              response_headers := some resp.headers,
              response_body := some resp.body }
        else x).find? (idemMatches user_id key)) = _
    rw [find?_map_update _ (fun x => idemMatches_update user_id key _ _ _ x), hr]
    rfl
  have h32 : resp.status < 32768 := by omega
  simp [get_saved_response, hfind, u16_i16_roundtrip h32, statusCode_from_u16,
    hlo, hhi]

/-- Witness for C4: the redirect response saved over a claimed record. -/
theorem save_response_roundtrip_witness :
    (save_response 1 "k" (redirect "/admin/newsletters")
      { idempotency := [{ user_id := 1, idempotency_key := "k", created_at := 0,
                          response_status_code := none, response_headers := none,
                          response_body := none }],
        newsletter_issues := [], issue_delivery_queue := [],
        subscriptions := [] }).1 = redirect "/admin/newsletters" ∧
    get_saved_response
      (save_response 1 "k" (redirect "/admin/newsletters")
        { idempotency := [{ user_id := 1, idempotency_key := "k", created_at := 0,
                            response_status_code := none, response_headers := none,
                            response_body := none }],
          newsletter_issues := [], issue_delivery_queue := [],
          subscriptions := [] }).2 1 "k" = .ok (some (redirect "/admin/newsletters")) :=
  save_response_roundtrip _ 1 "k" (redirect "/admin/newsletters")
    (by decide) (by decide) (by decide)

/-- C3: if the backoff computed for the claimed task
(`(n_retries + 1) * execute_after`) exceeds the hard ceiling of 5000, the
worker aborts the whole cycle as an error without deleting the task: the
committed state is unchanged (the cycle transaction rolls back every counter
update), so the task row still exists with its previous `n_retries`. -/
theorem backoff_ceiling_preserves_task (db : DbState) (task : DeliveryTaskRow)
    (rest : List Bool)
    (hhead : db.issue_delivery_queue.head? = some task)
    (hissue : (db.newsletter_issues.find?
      (fun i => i.newsletter_issue_id == task.newsletter_issue_id)).isSome)
    (hceil : (task.n_retries + 1) * task.execute_after > 5000) :
    ∃ e, try_send_email db true (false :: rest) = (.error e, db) ∧
      (try_send_email db true (false :: rest)).2.issue_delivery_queue.head? =
        some task := by
  have hstart : start_delivery db =
      some (db, task.newsletter_issue_id, task.subscriber_email) := by
    unfold start_delivery
    rw [hhead]
    rfl
  obtain ⟨i, hi⟩ := Option.isSome_iff_exists.mp hissue
  have hnl : get_issue db task.newsletter_issue_id = .ok ⟨i.title, i.content⟩ := by
    unfold get_issue
    rw [hi]
  have hfind : db.issue_delivery_queue.find?
      (taskMatches task.newsletter_issue_id task.subscriber_email) = some task := by
    cases hq : db.issue_delivery_queue with
    | nil => rw [hq] at hhead; simp at hhead
    | cons a tl =>
      rw [hq] at hhead
      simp only [List.head?_cons, Option.some.injEq] at hhead
      subst hhead
      simp [List.find?_cons, taskMatches]
  have hloop : delivery_retry_loop task.newsletter_issue_id task.subscriber_email
      (false :: rest) db = .error "aborting after retries" := by
    simp [delivery_retry_loop, hfind, hceil]
  refine ⟨"aborting after retries", ?_, ?_⟩
  · simp [try_send_email, hstart, hnl, hloop]
  · simp [try_send_email, hstart, hnl, hloop]
    exact hhead

/-- Witness for C3: a task with n_retries 5 and execute_after 1200, whose
next backoff 6 * 1200 = 7200 exceeds the 5000 ceiling. -/
theorem backoff_ceiling_preserves_task_witness :
    ∃ e, try_send_email
      { idempotency := [],
        newsletter_issues := [{ newsletter_issue_id := 7, title := "t", content := "c" }],
        issue_delivery_queue := [{ newsletter_issue_id := 7, subscriber_email := "a@b.c",
                                   n_retries := 5, execute_after := 1200 }],
        subscriptions := [] }
      true (false :: []) =
      (.error e,
       { idempotency := [],
         newsletter_issues := [{ newsletter_issue_id := 7, title := "t", content := "c" }],
         issue_delivery_queue := [{ newsletter_issue_id := 7, subscriber_email := "a@b.c",
                                    n_retries := 5, execute_after := 1200 }],
         subscriptions := [] }) ∧
      (try_send_email
        { idempotency := [],
          newsletter_issues := [{ newsletter_issue_id := 7, title := "t", content := "c" }],
          issue_delivery_queue := [{ newsletter_issue_id := 7, subscriber_email := "a@b.c",
                                     n_retries := 5, execute_after := 1200 }],
          subscriptions := [] }
        true (false :: [])).2.issue_delivery_queue.head? =
        some { newsletter_issue_id := 7, subscriber_email := "a@b.c",
               n_retries := 5, execute_after := 1200 } :=
  backoff_ceiling_preserves_task _
    { newsletter_issue_id := 7, subscriber_email := "a@b.c",
      n_retries := 5, execute_after := 1200 }
    [] rfl (by decide) (by decide)

/-- C6: for a claimed task whose recipient address fails validation, the
worker makes no send attempt (the outcome is the same for every provider
oracle), deletes the task row, commits, and reports the cycle as successful;
no other row or table is affected. -/
theorem invalid_email_retires_task (db : DbState) (task : DeliveryTaskRow)
    (hhead : db.issue_delivery_queue.head? = some task)
    (hissue : (db.newsletter_issues.find?
      (fun i => i.newsletter_issue_id == task.newsletter_issue_id)).isSome) :
    ∀ sends : List Bool,
      (try_send_email db false sends).1 = .ok .TasksLeft ∧
      (try_send_email db false sends).2.issue_delivery_queue =
        db.issue_delivery_queue.filter
          (fun r => !(taskMatches task.newsletter_issue_id task.subscriber_email r)) ∧
      (try_send_email db false sends).2.idempotency = db.idempotency ∧
      (try_send_email db false sends).2.newsletter_issues = db.newsletter_issues ∧
      (try_send_email db false sends).2.subscriptions = db.subscriptions := by
  intro sends
  have hstart : start_delivery db =
      some (db, task.newsletter_issue_id, task.subscriber_email) := by
    unfold start_delivery
    rw [hhead]
    rfl
  obtain ⟨i, hi⟩ := Option.isSome_iff_exists.mp hissue
  have hnl : get_issue db task.newsletter_issue_id = .ok ⟨i.title, i.content⟩ := by
    unfold get_issue
    rw [hi]
  refine ⟨?_, ?_, ?_, ?_, ?_⟩ <;>
    simp [try_send_email, hstart, hnl, finish_delivery]

/-- Witness for C6: a task whose recipient address failed validation. -/
theorem invalid_email_retires_task_witness :
    (try_send_email
      { idempotency := [],
        newsletter_issues := [{ newsletter_issue_id := 7, title := "t", content := "c" }],
        issue_delivery_queue := [{ newsletter_issue_id := 7, subscriber_email := "not-an-email",
                                   n_retries := 0, execute_after := 60 }],
        subscriptions := [] }
      false [false, false]).1 = .ok .TasksLeft ∧
    (try_send_email
      { idempotency := [],
        newsletter_issues := [{ newsletter_issue_id := 7, title := "t", content := "c" }],
        issue_delivery_queue := [{ newsletter_issue_id := 7, subscriber_email := "not-an-email",
                                   n_retries := 0, execute_after := 60 }],
        subscriptions := [] }
      false [false, false]).2.issue_delivery_queue =
      ([{ newsletter_issue_id := 7, subscriber_email := "not-an-email",
          n_retries := 0, execute_after := 60 }] : List DeliveryTaskRow).filter
        (fun r => !(taskMatches 7 "not-an-email" r)) ∧
    (try_send_email
      { idempotency := [],
        newsletter_issues := [{ newsletter_issue_id := 7, title := "t", content := "c" }],
        issue_delivery_queue := [{ newsletter_issue_id := 7, subscriber_email := "not-an-email",
                                   n_retries := 0, execute_after := 60 }],
        subscriptions := [] }
      false [false, false]).2.idempotency = [] ∧
    (try_send_email
      { idempotency := [],
        newsletter_issues := [{ newsletter_issue_id := 7, title := "t", content := "c" }],
        issue_delivery_queue := [{ newsletter_issue_id := 7, subscriber_email := "not-an-email",
                                   n_retries := 0, execute_after := 60 }],
        subscriptions := [] }
      false [false, false]).2.newsletter_issues =
      [{ newsletter_issue_id := 7, title := "t", content := "c" }] ∧
    (try_send_email
      { idempotency := [],
        newsletter_issues := [{ newsletter_issue_id := 7, title := "t", content := "c" }],
        issue_delivery_queue := [{ newsletter_issue_id := 7, subscriber_email := "not-an-email",
                                   n_retries := 0, execute_after := 60 }],
        subscriptions := [] }
      false [false, false]).2.subscriptions = [] :=
  invalid_email_retires_task
    { idempotency := [],
      newsletter_issues := [{ newsletter_issue_id := 7, title := "t", content := "c" }],
      issue_delivery_queue := [{ newsletter_issue_id := 7, subscriber_email := "not-an-email",
                                 n_retries := 0, execute_after := 60 }],
      subscriptions := [] }
    { newsletter_issue_id := 7, subscriber_email := "not-an-email",
      n_retries := 0, execute_after := 60 }
    rfl (by decide) [false, false]

/-- C10: if the parent issue row for the claimed task does not exist, the
worker cycle fails with an error before any send attempt (the outcome is the
same for every provider oracle and every validation verdict), the cycle
transaction rolls back, and the committed state — including the task row —
is unchanged, so the task is never deleted. -/
theorem missing_issue_preserves_task (db : DbState) (task : DeliveryTaskRow)
    (hhead : db.issue_delivery_queue.head? = some task)
    (hmissing : db.newsletter_issues.find?
      (fun i => i.newsletter_issue_id == task.newsletter_issue_id) = none) :
    ∀ (emailValid : Bool) (sends : List Bool), ∃ e,
      try_send_email db emailValid sends = (.error e, db) ∧
      (try_send_email db emailValid sends).2.issue_delivery_queue.head? =
        some task := by
  intro emailValid sends
  have hstart : start_delivery db =
      some (db, task.newsletter_issue_id, task.subscriber_email) := by
    unfold start_delivery
    rw [hhead]
    rfl
  have hnl : get_issue db task.newsletter_issue_id =
      .error "no rows returned by a query that expected to return at least one row" := by
    unfold get_issue
    rw [hmissing]
  refine ⟨"no rows returned by a query that expected to return at least one row", ?_, ?_⟩
  · simp [try_send_email, hstart, hnl]
  · simp [try_send_email, hstart, hnl]
    exact hhead

/-- Witness for C10: a queued task whose parent issue row is absent. -/
theorem missing_issue_preserves_task_witness :
    ∃ e, try_send_email
      { idempotency := [], newsletter_issues := [],
        issue_delivery_queue := [{ newsletter_issue_id := 7, subscriber_email := "a@b.c",
                                   n_retries := 0, execute_after := 60 }],
        subscriptions := [] }
      true [true] =
      (.error e,
       { idempotency := [], newsletter_issues := [],
         issue_delivery_queue := [{ newsletter_issue_id := 7, subscriber_email := "a@b.c",
                                    n_retries := 0, execute_after := 60 }],
         subscriptions := [] }) ∧
      (try_send_email
        { idempotency := [], newsletter_issues := [],
          issue_delivery_queue := [{ newsletter_issue_id := 7, subscriber_email := "a@b.c",
                                     n_retries := 0, execute_after := 60 }],
          subscriptions := [] }
        true [true]).2.issue_delivery_queue.head? =
        some { newsletter_issue_id := 7, subscriber_email := "a@b.c",
               n_retries := 0, execute_after := 60 } :=
  missing_issue_preserves_task
    { idempotency := [], newsletter_issues := [],
      issue_delivery_queue := [{ newsletter_issue_id := 7, subscriber_email := "a@b.c",
                                 n_retries := 0, execute_after := 60 }],
      subscriptions := [] }
    { newsletter_issue_id := 7, subscriber_email := "a@b.c",
      n_retries := 0, execute_after := 60 }
    rfl rfl true [true]

/-- Searching an append skips a left part in which nothing matches. -/
theorem find?_append_left_none {α : Type} {p : α → Bool} :
    ∀ {l1 : List α} (l2 : List α), l1.find? p = none →
      (l1 ++ l2).find? p = l2.find? p := by
  intro l1
  induction l1 with
  | nil => intro l2 _; rfl
  | cons a tl ih =>
    intro l2 h
    simp only [List.find?_cons] at h
    cases hpa : p a with
    | true => rw [hpa] at h; exact absurd h (by simp)
    | false =>
      rw [hpa] at h
      simp only [List.cons_append, List.find?_cons, hpa]
      exact ih l2 h

/-- Filtering a mapped list by a predicate every image satisfies keeps it
intact. -/
theorem filter_map_eq_self {α β : Type} (f : α → β) (p : β → Bool)
    (h : ∀ x, p (f x) = true) :
    ∀ l : List α, (l.map f).filter p = l.map f := by
  intro l
  induction l with
  | nil => rfl
  | cons a tl ih =>
    simp only [List.map_cons, List.filter_cons, h a, if_true]
    rw [ih]

/-- The completed idempotency record a fault-free publish commits: the
redirect response encoded into the row claimed at time `now`. -/
def savedRedirectRow (user_id : Nat) (key : String) (now : Int) : IdempotencyRow :=
  { user_id := user_id, idempotency_key := key, created_at := now,
    response_status_code := some (i16_of_u16 303),
    response_headers := some [{ name := "location",
                                value := strBytes "/admin/newsletters" }],
    response_body := some [] }

/-- The committed state a fault-free publish on a fresh key leaves behind:
the completed record, the new issue row and one delivery task per
currently-confirmed subscriber, each appended to its table.  Established
against `publish_newsletter` by `publish_fresh_eq`. -/
def publishedState (db : DbState) (user_id : Nat) (key : String)
    (title content : String) (now : Int) (new_issue_id : Nat) (base : Int) :
    DbState :=
  { idempotency := db.idempotency ++ [savedRedirectRow user_id key now]
    newsletter_issues := db.newsletter_issues ++
      [{ newsletter_issue_id := new_issue_id, title := title, content := content }]
    issue_delivery_queue := db.issue_delivery_queue ++
      (db.subscriptions.filter (fun s => s.status == "confirmed")).map
        (fun s => { newsletter_issue_id := new_issue_id,
                    subscriber_email := s.email, n_retries := 0,
                    execute_after := base })
    subscriptions := db.subscriptions }

/-- The exact committed state of a fault-free `publish_newsletter` on a fresh
(actor, key): the response is the redirect, and the committed state appends
the completed idempotency record, the issue row and one delivery task per
currently-confirmed subscriber. -/
theorem publish_fresh_eq (db : DbState) (user_id : Nat) (form : NewsletterForm)
    (now : Int) (new_issue_id : Nat) (base : Int)
    (hkey : IdempotencyKey.tryFrom form.idempotency_key = .ok form.idempotency_key)
    (hnew : db.idempotency.any (idemMatches user_id form.idempotency_key) = false) :
    publish_newsletter db user_id form now new_issue_id base .noFault =
      (.ok (redirect "/admin/newsletters"),
       publishedState db user_id form.idempotency_key form.title form.content
         now new_issue_id base) := by
  have htry : try_save_response db user_id form.idempotency_key now =
      .ok (.StartProcessing
        { db with
            idempotency := db.idempotency ++
              [{ user_id := user_id, idempotency_key := form.idempotency_key,
                 created_at := now, response_status_code := none,
                 response_headers := none, response_body := none }] }) := by
    unfold try_save_response
    simp [hnew]
  have hfreshMatch : idemMatches user_id form.idempotency_key
      { user_id := user_id, idempotency_key := form.idempotency_key,
        created_at := now, response_status_code := none,
        response_headers := none, response_body := none } = true := by
    simp [idemMatches]
  unfold publish_newsletter
  rw [hkey]
  simp only [htry]
  unfold insert_issue enqueue_delivery_tasks save_response publishedState
    savedRedirectRow
  simp only [List.map_append, List.map_cons, List.map_nil]
  rw [map_update_eq_self _ hnew]
  simp [hfreshMatch]
  exact ⟨rfl, rfl, rfl⟩

/-- On a fresh (actor, key), the claim insert succeeds and hands back the
transaction holding the empty record. -/
theorem try_save_response_fresh (db : DbState) (user_id : Nat) (key : String)
    (now : Int)
    (hnew : db.idempotency.any (idemMatches user_id key) = false) :
    try_save_response db user_id key now =
      .ok (.StartProcessing
        { db with
            idempotency := db.idempotency ++
              [{ user_id := user_id, idempotency_key := key, created_at := now,
                 response_status_code := none, response_headers := none,
                 response_body := none }] }) := by
  unfold try_save_response
  simp [hnew]

/-- When the record found for (actor, key) is completed with the encoding of
a valid response, the claim conflicts and replays exactly that response. -/
theorem try_save_response_completed (db : DbState) (user_id : Nat)
    (key : String) (now : Int) (resp : HttpResponse) (created : Int)
    (hfind : db.idempotency.find? (idemMatches user_id key) = some
      { user_id := user_id, idempotency_key := key, created_at := created,
        response_status_code := some (i16_of_u16 resp.status),
        response_headers := some resp.headers,
        response_body := some resp.body })
    (hlo : 100 ≤ resp.status) (hhi : resp.status < 1000) :
    try_save_response db user_id key now = .ok (.ReturnSavedResponse resp) := by
  have hany : db.idempotency.any (idemMatches user_id key) = true :=
    List.any_eq_true.mpr
      ⟨_, List.mem_of_find?_eq_some hfind, List.find?_some hfind⟩
  have h32 : resp.status < 32768 := by omega
  have hget : get_saved_response db user_id key = .ok (some resp) := by
    simp [get_saved_response, hfind, u16_i16_roundtrip h32, statusCode_from_u16,
      hlo, hhi]
  simp [try_save_response, hany, hget]

/-- C1: publishing twice with the same (actor, key) — the second call with
arbitrary different title/content, at any later time, with any fresh issue
id, base interval and even any injected fault — returns a response identical
to the first call's and leaves the database exactly as the first call left
it: one issue row for the new id and one delivery task per subscriber that
was confirmed at the first call; the second call performs no second insert
and no second enqueue. -/
theorem publish_is_idempotent (db : DbState) (user_id : Nat)
    (form1 form2 : NewsletterForm) (now1 now2 : Int) (id1 id2 : Nat)
    (base1 base2 : Int) (fault2 : PublishFault)
    (hkey : IdempotencyKey.tryFrom form1.idempotency_key = .ok form1.idempotency_key)
    (hsame : form2.idempotency_key = form1.idempotency_key)
    (hnew : db.idempotency.any (idemMatches user_id form1.idempotency_key) = false)
    (hfreshI : db.newsletter_issues.filter
      (fun i => i.newsletter_issue_id == id1) = [])
    (hfreshQ : db.issue_delivery_queue.filter
      (fun r => r.newsletter_issue_id == id1) = []) :
    ∃ r1 db1,
      publish_newsletter db user_id form1 now1 id1 base1 .noFault = (.ok r1, db1) ∧
      publish_newsletter db1 user_id form2 now2 id2 base2 fault2 = (.ok r1, db1) ∧
      (db1.newsletter_issues.filter
        (fun i => i.newsletter_issue_id == id1)).length = 1 ∧
      (db1.issue_delivery_queue.filter
        (fun r => r.newsletter_issue_id == id1)).length =
        (db.subscriptions.filter (fun s => s.status == "confirmed")).length := by
  refine ⟨redirect "/admin/newsletters",
    publishedState db user_id form1.idempotency_key form1.title form1.content
      now1 id1 base1,
    publish_fresh_eq db user_id form1 now1 id1 base1 hkey hnew, ?_, ?_, ?_⟩
  · -- the cached path of the second call
    have hfind : (publishedState db user_id form1.idempotency_key form1.title
        form1.content now1 id1 base1).idempotency.find?
        (idemMatches user_id form1.idempotency_key) =
        some (savedRedirectRow user_id form1.idempotency_key now1) := by
      simp only [publishedState]
      rw [find?_append_left_none _ (find?_eq_none_of_any_eq_false hnew)]
      simp [List.find?_cons, savedRedirectRow, idemMatches]
    have htry2 := try_save_response_completed
      (publishedState db user_id form1.idempotency_key form1.title
        form1.content now1 id1 base1)
      user_id form1.idempotency_key now2 (redirect "/admin/newsletters") now1
      hfind (by decide) (by decide)
    unfold publish_newsletter
    rw [hsame, hkey]
    simp only [htry2]
  · -- exactly one issue row for the fresh id
    simp [publishedState, List.filter_append, hfreshI]
  · -- one task per confirmed subscriber
    have hfm := filter_map_eq_self
      (fun s : SubscriptionRow =>
        ({ newsletter_issue_id := id1, subscriber_email := s.email,
           n_retries := 0, execute_after := base1 } : DeliveryTaskRow))
      (fun r => r.newsletter_issue_id == id1)
      (fun s => by simp)
      (db.subscriptions.filter (fun s => s.status == "confirmed"))
    simp [publishedState, List.filter_append, hfreshQ, hfm, List.length_map]

/-- C2: if publish fails after a successful claim and before `complete`
commits — issue-insert error, task-enqueue error, or a crash so that
`complete` is never called — the committed state is exactly the input state
(no issue, no tasks and no idempotency record persist), and a subsequent
claim for the same (actor, key) succeeds as a fresh attempt. -/
theorem publish_midway_failure_leaves_no_state (db : DbState) (user_id : Nat)
    (form : NewsletterForm) (now : Int) (new_issue_id : Nat) (base : Int)
    (fault : PublishFault)
    (hkey : IdempotencyKey.tryFrom form.idempotency_key = .ok form.idempotency_key)
    (hnew : db.idempotency.any (idemMatches user_id form.idempotency_key) = false)
    (hfault : fault = .issueInsertFails ∨ fault = .enqueueFails ∨
      fault = .crashBeforeComplete) :
    (∃ e, publish_newsletter db user_id form now new_issue_id base fault =
      (.error e, db)) ∧
    ∀ now2 : Int, ∃ t, try_save_response db user_id form.idempotency_key now2 =
      .ok (.StartProcessing t) := by
  constructor
  · have htry := try_save_response_fresh db user_id form.idempotency_key now hnew
    rcases hfault with h | h | h <;> subst h <;>
      exact ⟨_, by unfold publish_newsletter; rw [hkey]; simp only [htry]; rfl⟩
  · intro now2
    exact ⟨_, try_save_response_fresh db user_id form.idempotency_key now2 hnew⟩

/-- C5: a successful publish enqueues exactly one delivery task per
subscriber confirmed at the instant of the bulk insert — the tasks for the
new issue are exactly the confirmed subscribers' addresses, in order, so 0
confirmed subscribers yield the issue but zero tasks and 1 confirmed
subscriber yields exactly one — and subscribers confirmed later are not
retroactively included. -/
theorem publish_fanout_confirmed_only (db : DbState) (user_id : Nat)
    (form : NewsletterForm) (now : Int) (id1 : Nat) (base : Int)
    (hkey : IdempotencyKey.tryFrom form.idempotency_key = .ok form.idempotency_key)
    (hnew : db.idempotency.any (idemMatches user_id form.idempotency_key) = false)
    (hfreshI : db.newsletter_issues.filter
      (fun i => i.newsletter_issue_id == id1) = [])
    (hfreshQ : db.issue_delivery_queue.filter
      (fun r => r.newsletter_issue_id == id1) = []) :
    ∃ r1 db1,
      publish_newsletter db user_id form now id1 base .noFault = (.ok r1, db1) ∧
      (db1.issue_delivery_queue.filter
        (fun r => r.newsletter_issue_id == id1)).map
          (fun r => r.subscriber_email) =
        (db.subscriptions.filter (fun s => s.status == "confirmed")).map
          (fun s => s.email) ∧
      (db1.newsletter_issues.filter
        (fun i => i.newsletter_issue_id == id1)).length = 1 := by
  refine ⟨redirect "/admin/newsletters",
    publishedState db user_id form.idempotency_key form.title form.content
      now id1 base,
    publish_fresh_eq db user_id form now id1 base hkey hnew, ?_, ?_⟩
  · have hfm := filter_map_eq_self
      (fun s : SubscriptionRow =>
        ({ newsletter_issue_id := id1, subscriber_email := s.email,
           n_retries := 0, execute_after := base } : DeliveryTaskRow))
      (fun r => r.newsletter_issue_id == id1)
      (fun s => by simp)
      (db.subscriptions.filter (fun s => s.status == "confirmed"))
    simp [publishedState, List.filter_append, hfreshQ, hfm, List.map_map]
  · simp [publishedState, List.filter_append, hfreshI]

/-- Witness for C1: one confirmed subscriber, second call with different
title and content and an injected fault that the cached path never reaches. -/
theorem publish_is_idempotent_witness :
    ∃ r1 db1,
      publish_newsletter
        { idempotency := [], newsletter_issues := [], issue_delivery_queue := [],
          subscriptions := [{ email := "a@b.c", status := "confirmed" }] }
        1 { title := "t", content := "c", idempotency_key := "k" }
        0 7 60 .noFault = (.ok r1, db1) ∧
      publish_newsletter db1
        1 { title := "T", content := "C", idempotency_key := "k" }
        5 8 60 .crashBeforeComplete = (.ok r1, db1) ∧
      (db1.newsletter_issues.filter
        (fun i => i.newsletter_issue_id == 7)).length = 1 ∧
      (db1.issue_delivery_queue.filter
        (fun r => r.newsletter_issue_id == 7)).length =
        (([{ email := "a@b.c", status := "confirmed" }] : List SubscriptionRow).filter
          (fun s => s.status == "confirmed")).length :=
  publish_is_idempotent
    { idempotency := [], newsletter_issues := [], issue_delivery_queue := [],
      subscriptions := [{ email := "a@b.c", status := "confirmed" }] }
    1 { title := "t", content := "c", idempotency_key := "k" }
    { title := "T", content := "C", idempotency_key := "k" }
    0 5 7 8 60 60 .crashBeforeComplete rfl rfl rfl rfl rfl

/-- Witness for C2: an enqueue failure after a successful claim. -/
theorem publish_midway_failure_leaves_no_state_witness :
    (∃ e, publish_newsletter
      { idempotency := [], newsletter_issues := [], issue_delivery_queue := [],
        subscriptions := [{ email := "a@b.c", status := "confirmed" }] }
      1 { title := "t", content := "c", idempotency_key := "k" }
      0 7 60 .enqueueFails =
      (.error e,
       { idempotency := [], newsletter_issues := [], issue_delivery_queue := [],
         subscriptions := [{ email := "a@b.c", status := "confirmed" }] })) ∧
    ∀ now2 : Int, ∃ t, try_save_response
      { idempotency := [], newsletter_issues := [], issue_delivery_queue := [],
        subscriptions := [{ email := "a@b.c", status := "confirmed" }] }
      1 "k" now2 = .ok (.StartProcessing t) :=
  publish_midway_failure_leaves_no_state
    { idempotency := [], newsletter_issues := [], issue_delivery_queue := [],
      subscriptions := [{ email := "a@b.c", status := "confirmed" }] }
    1 { title := "t", content := "c", idempotency_key := "k" }
    0 7 60 .enqueueFails rfl rfl (Or.inr (Or.inl rfl))

/-- Witness for C5: one confirmed and one unconfirmed subscriber. -/
theorem publish_fanout_confirmed_only_witness :
    ∃ r1 db1,
      publish_newsletter
        { idempotency := [], newsletter_issues := [], issue_delivery_queue := [],
          subscriptions := [{ email := "a@b.c", status := "confirmed" },
                            { email := "x@y.z", status := "pending" }] }
        1 { title := "t", content := "c", idempotency_key := "k" }
        0 7 60 .noFault = (.ok r1, db1) ∧
      (db1.issue_delivery_queue.filter
        (fun r => r.newsletter_issue_id == 7)).map
          (fun r => r.subscriber_email) =
        (([{ email := "a@b.c", status := "confirmed" },
            { email := "x@y.z", status := "pending" }] : List SubscriptionRow).filter
          (fun s => s.status == "confirmed")).map (fun s => s.email) ∧
      (db1.newsletter_issues.filter
        (fun i => i.newsletter_issue_id == 7)).length = 1 :=
  publish_fanout_confirmed_only
    { idempotency := [], newsletter_issues := [], issue_delivery_queue := [],
      subscriptions := [{ email := "a@b.c", status := "confirmed" },
                        { email := "x@y.z", status := "pending" }] }
    1 { title := "t", content := "c", idempotency_key := "k" }
    0 7 60 rfl rfl rfl rfl

end Ztp
